import Mathlib

/-!
Verification development for the Flips Auto Patcher repository.

The repository is a Python GUI tool orchestrating the external `flips`
binary-patching utility.  This file gives a shallow embedding of its core
logic:

* `utils.py`: `calculate_crc32`, `calculate_md5`, `calculate_sha1`,
  `calculate_zle_hash`, `get_patch_metadata`;
* `main.py` (`AutoPatcherApp`): `create_patches`, `apply_patches`, and the
  expanded-file-search steps of `start_patching`.

The file system is modelled as a partial map from path strings to byte
lists (a byte is a `Nat` below 256; where Python guarantees byte range we
take the value modulo 256).  External collaborators are modelled as
components of an `Env` record: the `flips` subprocess (`tool`), the
`hashlib` MD5/SHA-1 digests (arbitrary functions of the file content),
`os.path.abspath`, `os.listdir`, `os.walk`, `os.path.isfile`, and the
`os.path.exists` check performed after a failed apply (`existsAfter`).
Python exceptions are modelled with `Except PyErr`; code that catches
exceptions is translated by matching on the `Except` value.
-/

/-- Python exception classes that the modelled code can raise:
opening a missing/unreadable file raises `FileNotFoundError`/`OSError`
(`fileNotFound` here), and `f.seek(-12, os.SEEK_END)` on a file shorter
than 12 bytes raises `OSError` (`osError` here). -/
inductive PyErr where
  | fileNotFound
  | osError
deriving DecidableEq

/-- Rendering of the exception used by the `print` in `get_patch_metadata`. -/
def PyErr.text : PyErr → String
  | .fileNotFound => "No such file or directory"
  | .osError => "Invalid argument"

/-- A file system: path to file bytes, `none` when the file cannot be opened. -/
def FS : Type := String → Option (List Nat)

/- ----------------------------------------------------------------- -/
/- Character and string helpers mirroring the Python builtins used.  -/
/- ----------------------------------------------------------------- -/

/-- Index of the last occurrence of `c` (Python `str.rfind`, `none` for -1). -/
def rfindChar (c : Char) : List Char → Option Nat
  | [] => none
  | x :: xs =>
    match rfindChar c xs with
    | some j => some (j + 1)
    | none => if x = c then some 0 else none

/-- `os.path.basename` (posix): everything after the last slash. -/
def basename (p : String) : String :=
  match rfindChar '/' p.data with
  | none => p
  | some i => ⟨p.data.drop (i + 1)⟩

/-- `os.path.dirname` (posix): `head = p[: p.rfind(sep) + 1]`, then trailing
slashes are stripped unless `head` is all slashes. -/
def dirname (p : String) : String :=
  match rfindChar '/' p.data with
  | none => ""
  | some i =>
    let head := p.data.take (i + 1)
    if head.all (fun c => c == '/') then ⟨head⟩
    else ⟨(head.reverse.dropWhile (fun c => c == '/')).reverse⟩

/-- `os.path.splitext` (generic implementation): split at the last dot of the
basename, provided some earlier character of the basename is not a dot. -/
def splitext (p : String) : String × String :=
  let cs := p.data
  match rfindChar '.' cs with
  | none => (p, "")
  | some d =>
    let si : Nat := match rfindChar '/' cs with | none => 0 | some i => i + 1
    let sepOk : Bool := match rfindChar '/' cs with | none => true | some i => decide (i < d)
    if sepOk && ((cs.drop si).take (d - si)).any (fun c => !(c == '.')) then
      (⟨cs.take d⟩, ⟨cs.drop d⟩)
    else (p, "")

/-- Bool test: `pat` is a leading segment of `l`. -/
def startsWithL (pat l : List Char) : Bool :=
  match pat, l with
  | [], _ => true
  | p :: ps, c :: cs => p == c && startsWithL ps cs
  | _, _ => false

/-- Bool test: `pat` is a trailing segment of the second list
(Python `str.endswith`). -/
def endsWithL (pat l : List Char) : Bool :=
  startsWithL pat.reverse l.reverse

/-- Bool test: `pat` occurs contiguously in the list (Python `in`). -/
def hasSub (pat : List Char) : List Char → Bool
  | [] => pat.isEmpty
  | c :: t => startsWithL pat (c :: t) || hasSub pat t

/-- Python substring test `needle in hay`. -/
def pyIn (needle hay : String) : Bool :=
  hasSub needle.data hay.data

/-- `os.path.join` (posix) for two components. -/
def pyJoin (a b : String) : String :=
  if startsWithL ['/'] b.data then b
  else if a == "" || endsWithL ['/'] a.data then a ++ b
  else a ++ "/" ++ b

/-- Python `str.lower` (ASCII; the file extensions compared are ASCII). -/
def pyLower (s : String) : String :=
  ⟨s.data.map Char.toLower⟩

/-- Whitespace stripped by Python `str.strip`. -/
def isPySpace (c : Char) : Bool :=
  c == ' ' || c == '\t' || c == '\n' || c == '\r'

/-- Python `str.strip`. -/
def pyStrip (s : String) : String :=
  ⟨((s.data.dropWhile isPySpace).reverse.dropWhile isPySpace).reverse⟩

/-- Strip trailing `'0'` characters (Python `str.rstrip('0')`). -/
def rstrip0 (l : List Char) : List Char :=
  (l.reverse.dropWhile (fun c => c == '0')).reverse

/-- Lowercase hexadecimal digit for a value below 16. -/
def hexDigit : Nat → Char
  | 0 => '0' | 1 => '1' | 2 => '2' | 3 => '3' | 4 => '4'
  | 5 => '5' | 6 => '6' | 7 => '7' | 8 => '8' | 9 => '9'
  | 10 => 'a' | 11 => 'b' | 12 => 'c' | 13 => 'd' | 14 => 'e' | _ => 'f'

/-- Hex digits of `n`, most significant first; fuel-driven so that it
computes by kernel reduction.  Fuel 9 suffices for every value the program
formats (all are below `2 ^ 32 = 16 ^ 8`). -/
def hexRepFuel : Nat → Nat → List Char
  | 0, _ => []
  | fuel + 1, n =>
    if n < 16 then [hexDigit n]
    else hexRepFuel fuel (n / 16) ++ [hexDigit (n % 16)]

/-- The characters of Python `f"{n:#010x}"` for the 32-bit values the
program renders: `0x` followed by the hex digits left-padded with `'0'`
to 8 digits. -/
def pyHex010L (n : Nat) : List Char :=
  '0' :: 'x' :: (List.replicate (8 - (hexRepFuel 9 n).length) '0' ++ hexRepFuel 9 n)

/-- Python `f"{n:#010x}"` as a string. -/
def pyHex010 (n : Nat) : String :=
  ⟨pyHex010L n⟩

/-- Python `bytes.hex()`: two lowercase hex digits per byte. -/
def hexBytes : List Nat → List Char
  | [] => []
  | b :: bs => hexDigit (b % 256 / 16) :: hexDigit (b % 16) :: hexBytes bs

/- ----------------------------------------------------------------- -/
/- CRC-32 (binascii.crc32) and the utils.py hash functions.          -/
/- ----------------------------------------------------------------- -/

/-- One bit step of the reflected CRC-32 (polynomial 0xEDB88320). -/
def crc32_step (c : Nat) : Nat :=
  if c % 2 = 1 then (c / 2) ^^^ 0xEDB88320 else c / 2

/-- One byte step of CRC-32: xor the byte in, then eight bit steps. -/
def crc32_byte (c b : Nat) : Nat :=
  crc32_step (crc32_step (crc32_step (crc32_step
    (crc32_step (crc32_step (crc32_step (crc32_step (c ^^^ (b % 256)))))))))

/-- Raw CRC register update over a byte list. -/
def crc32_update (c : Nat) (data : List Nat) : Nat :=
  data.foldl crc32_byte c

/-- `binascii.crc32(data, c)`: pre- and post-complemented CRC-32. -/
def binascii_crc32 (data : List Nat) (c : Nat) : Nat :=
  crc32_update ((c % 4294967296) ^^^ 0xFFFFFFFF) data ^^^ 0xFFFFFFFF

/-- The 64 KiB read loop of `calculate_crc32`, folding `binascii.crc32`
over successive chunks; fuel-driven (fuel `length + 1` always suffices
since every iteration consumes at least one byte). -/
def crcChunks : Nat → Nat → List Nat → Nat
  | _, c, [] => c
  | 0, c, _ :: _ => c
  | fuel + 1, c, x :: xs =>
    crcChunks fuel (binascii_crc32 ((x :: xs).take 65536) c) ((x :: xs).drop 65536)

/-- CRC-32 of a whole file content as `calculate_crc32` computes it
(chunked loop starting from 0, final `& 0xFFFFFFFF`). -/
def crcContent (content : List Nat) : Nat :=
  crcChunks (content.length + 1) 0 content &&& 0xFFFFFFFF

/-- `utils.calculate_crc32`: opens the file and folds `binascii.crc32`
over 64 KiB chunks; an unopenable file raises to the caller. -/
def calculate_crc32 (fs : FS) (p : String) : Except PyErr Nat :=
  match fs p with
  | none => .error .fileNotFound
  | some content => .ok (crcContent content)

/-- `utils.calculate_md5`: `hashlib.md5` is an external library digest of
the streamed file content, modelled by the function `md5hex`. -/
def calculate_md5 (md5hex : List Nat → String) (fs : FS) (p : String) : Except PyErr String :=
  match fs p with
  | none => .error .fileNotFound
  | some content => .ok (md5hex content)

/-- `utils.calculate_sha1`: `hashlib.sha1` modelled by `sha1hex`. -/
def calculate_sha1 (sha1hex : List Nat → String) (fs : FS) (p : String) : Except PyErr String :=
  match fs p with
  | none => .error .fileNotFound
  | some content => .ok (sha1hex content)

/-- `utils.calculate_zle_hash`: hex of `rom_content[16:28]` with trailing
`'0'` characters stripped; an unopenable file raises to the caller. -/
def calculate_zle_hash (fs : FS) (p : String) : Except PyErr String :=
  match fs p with
  | none => .error .fileNotFound
  | some content => .ok ⟨rstrip0 (hexBytes ((content.drop 16).take 12))⟩

/-- `struct.unpack('<I', ...)`: little-endian unsigned 32-bit integer from
the first four bytes. -/
def leU32 : List Nat → Nat
  | b0 :: b1 :: b2 :: b3 :: _ =>
    b0 % 256 + 256 * (b1 % 256) + 65536 * (b2 % 256) + 16777216 * (b3 % 256)
  | _ => 0

/- ----------------------------------------------------------------- -/
/- The environment of external collaborators.                        -/
/- ----------------------------------------------------------------- -/

/-- Result of one `subprocess.run` of the external `flips` tool. -/
structure ToolRun where
  exitZero : Bool
  stdout : String
  stderr : String

/-- External collaborators of the modelled code. -/
structure Env where
  fs : FS
  md5hex : List Nat → String
  sha1hex : List Nat → String
  abspath : String → String
  flips : String
  tool : List String → ToolRun
  existsAfter : String → Bool
  listdir : String → List String
  isfile : String → Bool
  walk : String → List (String × List String)

/- ----------------------------------------------------------------- -/
/- utils.get_patch_metadata.                                         -/
/- ----------------------------------------------------------------- -/

/-- Body of the `try` block of `utils.get_patch_metadata`: open the file,
compute its own hashes (each helper reopens the path), then seek to 12
bytes before end-of-file and unpack two little-endian u32 values from the
next 8 bytes.  A file shorter than 12 bytes makes the seek raise. -/
def get_patch_metadata_core (env : Env) (p : String) : Except PyErr (List (String × String)) :=
  match env.fs p with
  | none => .error .fileNotFound
  | some content =>
    match calculate_crc32 env.fs p, calculate_md5 env.md5hex env.fs p,
          calculate_sha1 env.sha1hex env.fs p, calculate_zle_hash env.fs p with
    | .ok crc, .ok md5, .ok sha1, .ok zle =>
      if 12 ≤ content.length then
        let t := (content.drop (content.length - 12)).take 8
        .ok [("CRC32", pyHex010 crc), ("MD5", md5), ("SHA-1", sha1), ("ZLE", zle),
             ("Source CRC32", pyHex010 (leU32 t)), ("Target CRC32", pyHex010 (leU32 (t.drop 4)))]
      else .error .osError
    | .error e, _, _, _ => .error e
    | _, .error e, _, _ => .error e
    | _, _, .error e, _ => .error e
    | _, _, _, .error e => .error e

/-- `utils.get_patch_metadata`: the whole body is wrapped in
`try ... except Exception`, so every failure is turned into `None`. -/
def get_patch_metadata (env : Env) (p : String) : Option (List (String × String)) :=
  (get_patch_metadata_core env p).toOption

/-- The console diagnostics printed by `utils.get_patch_metadata`
(the `except` branch prints exactly one line). -/
def get_patch_metadata_prints (env : Env) (p : String) : List String :=
  match get_patch_metadata_core env p with
  | .ok _ => []
  | .error e => ["Error reading patch file " ++ p ++ ": " ++ e.text]

/-- Lookup of a metadata field, as `apply_patches` does with
`metadata and "Source CRC32" in metadata` followed by indexing (an absent
dictionary, like an empty one, yields no value). -/
def metaLookup (env : Env) (p key : String) : Option String :=
  match get_patch_metadata env p with
  | some d => d.lookup key
  | none => none

/- ----------------------------------------------------------------- -/
/- AutoPatcherApp options and apply_patches (main.py, section C3).   -/
/- ----------------------------------------------------------------- -/

/-- The user-controlled options read by the two operations. -/
structure Opts where
  force_patch : Bool
  append_suffix : Bool
  bps_ips_type : String

/-- Output path of an apply run: patch basename-root, optional
`"_patched"` suffix, then the base file extension. -/
def outPath (opts : Opts) (base patch : String) : String :=
  (splitext patch).1 ++ (if opts.append_suffix then "_patched" else "") ++ (splitext base).2

/-- The `source_crc32` value of `apply_patches`: set only when metadata is
present and holds a `"Source CRC32"` key. -/
def applySource (env : Env) (patch : String) : Option String :=
  match get_patch_metadata env patch with
  | some d => d.lookup "Source CRC32"
  | none => none

/-- Line 514/521 condition of `apply_patches`:
`self.force_patch.get() and source_crc32 and f"{base_crc32:#010x}" != source_crc32`
(`source_crc32` is truthy iff it is a non-empty string). -/
def overrideCond (force : Bool) (baseHex : String) (source : Option String) : Bool :=
  force && (match source with
    | none => false
    | some s => (!(s == "")) && (!(baseHex == s)))

/-- The argument vector built by the `try` block of `apply_patches`. -/
def applyCmd (env : Env) (force : Bool) (baseHex : String) (source : Option String)
    (patch base out : String) : List String :=
  if overrideCond force baseHex source then
    [env.flips, "--apply", "--ignore-checksum", patch, base, out]
  else
    [env.flips, "--apply", patch, base, out]

/-- The `try ... except CalledProcessError` block of `apply_patches`:
run the tool, then log success, soft success (output file exists despite a
non-zero exit) or the captured failure.  Returns the logged lines and the
single invocation performed. -/
def applyTry (env : Env) (force : Bool) (base patch out baseHex : String)
    (source : Option String) : List String × List (List String) :=
  let cmd := applyCmd env force baseHex source patch base out
  let run := env.tool cmd
  if run.exitZero then
    (if overrideCond force baseHex source then
       ["Successfully applied patch despite errors: " ++ basename out]
     else
       ["Successfully applied patch: " ++ basename out], [cmd])
  else if !(env.existsAfter out) then
    (["Error applying patch [" ++ basename patch ++ "]:",
      "  Command: " ++ String.intercalate " " cmd,
      "  Stdout: " ++ (if run.stdout == "" then "No output" else pyStrip run.stdout),
      "  Stderr: " ++ (if run.stderr == "" then "Unknown error occurred." else pyStrip run.stderr)],
     [cmd])
  else
    (["Successfully applied patch despite errors: [" ++ basename out ++ "]",
      "Output file location: " ++ out], [cmd])

/-- One iteration of the `apply_patches` loop for a single patch file.
Returns (logged lines, tool invocations, crashed): `crashed` is true when
the unguarded `calculate_crc32(self.base_rom)` raises, which aborts the
whole loop (the exception propagates out of the worker). -/
def applyOne (env : Env) (opts : Opts) (base patch : String) :
    List String × List (List String) × Bool :=
  let out := outPath opts base patch
  match calculate_crc32 env.fs base with
  | .error _ => ([], [], true)
  | .ok bcrc =>
    let baseHex := pyHex010 bcrc
    match applySource env patch with
    | some s =>
      if baseHex ≠ s then
        if opts.force_patch then
          let r := applyTry env opts.force_patch base patch out baseHex (some s)
          (("Force to Patch enabled. Applying patch for " ++ basename patch
             ++ " despite CRC32 mismatch.") :: r.1, r.2, false)
        else
          (["Skipping patching for " ++ basename patch ++ " due to CRC32 mismatch."], [], false)
      else
        let r := applyTry env opts.force_patch base patch out baseHex (some s)
        (("CRC32 match for " ++ basename patch ++ ". Proceeding with patch.") :: r.1, r.2, false)
    | none =>
      let r := applyTry env opts.force_patch base patch out baseHex none
      (r.1, r.2, false)

/-- The `for patch_file_path in self.patch_files` loop of `apply_patches`. -/
def applyAll (env : Env) (opts : Opts) (base : String) :
    List String → List String × List (List String) × Bool
  | [] => ([], [], false)
  | p :: rest =>
    let r := applyOne env opts base p
    if r.2.2 then (r.1, r.2.1, true)
    else
      let rs := applyAll env opts base rest
      (r.1 ++ rs.1, r.2.1 ++ rs.2.1, rs.2.2)

/-- `AutoPatcherApp.apply_patches`: guard on a selected base ROM, run the
loop, then report completion once (unless the loop crashed). -/
def apply_patches (env : Env) (opts : Opts) (baseOpt : Option String)
    (patches : List String) : List String × List (List String) × Bool :=
  match baseOpt with
  | none => (["Error: No Base ROM selected. Please select a Base ROM first."], [], false)
  | some base =>
    let r := applyAll env opts base patches
    if r.2.2 then r
    else (r.1 ++ ["Patching process is complete."], r.2.1, false)

/- ----------------------------------------------------------------- -/
/- AutoPatcherApp.create_patches (main.py, section C3).              -/
/- ----------------------------------------------------------------- -/

/-- Output path of a create run: modified basename-root, optional
`"_patched"` suffix, then the configured patch extension. -/
def createOutPath (opts : Opts) (rom : String) : String :=
  (splitext rom).1 ++ (if opts.append_suffix then "_patched" else "")
    ++ (if opts.bps_ips_type == ".ips" then ".ips" else ".bps")

/-- One iteration of the `create_patches` loop: self-comparison guard,
CRC fast path (whose `try ... except: pass` swallows hashing failures),
then the external create command with its error handling. -/
def createOne (env : Env) (opts : Opts) (base rom : String) :
    List String × List (List String) :=
  let out := createOutPath opts rom
  if env.abspath rom == env.abspath base then
    (["Error: Base ROM and Modified ROM must cannot be the same file. Ignoring this one."], [])
  else
    let identical : Bool :=
      match calculate_crc32 env.fs base, calculate_crc32 env.fs rom with
      | .ok a, .ok b => a == b
      | _, _ => false
    if identical then
      (["Skipping " ++ basename rom ++ ": Base and Modified are identical (no patch needed)."], [])
    else
      let cmd := [env.flips, "--create", base, rom, out]
      let run := env.tool cmd
      if run.exitZero then
        (["Successfully created patch: " ++ basename out], [cmd])
      else
        let msgOut := pyStrip run.stdout
        let msgErr := pyStrip run.stderr
        if pyIn "The files are identical" msgOut then
          (["Skipping " ++ basename rom ++ ": files are identical."], [cmd])
        else
          (["Error creating patch for " ++ basename rom ++ ":",
            "  Command: " ++ String.intercalate " " cmd,
            "  Stdout: " ++ (if msgOut == "" then "No output" else msgOut),
            "  Stderr: " ++ (if msgErr == "" then "Unknown error occurred." else msgErr)],
           [cmd])

/-- The `for rom in self.modified_rom` loop of `create_patches`. -/
def createAll (env : Env) (opts : Opts) (base : String) :
    List String → List String × List (List String)
  | [] => ([], [])
  | rom :: rest =>
    let r := createOne env opts base rom
    let rs := createAll env opts base rest
    (r.1 ++ rs.1, r.2 ++ rs.2)

/-- `AutoPatcherApp.create_patches`: guards on base and modified
selections, the loop, then a single completion report. -/
def create_patches (env : Env) (opts : Opts) (baseOpt : Option String)
    (modified : List String) : List String × List (List String) :=
  match baseOpt with
  | none => (["Error: No Base ROM selected. Please select a Base ROM first."], [])
  | some base =>
    if modified.isEmpty then
      (["Error: No Modified ROM selected. Please select a Modified ROM first."], [])
    else
      ((createAll env opts base modified).1 ++ ["Patch creation process is complete."],
       (createAll env opts base modified).2)

/- ----------------------------------------------------------------- -/
/- Expanded file search (main.py, start_patching, section C5).       -/
/- ----------------------------------------------------------------- -/

/-- The ROM extensions tuple used by the create-branch expansion. -/
def romExts : List String :=
  [".nes", ".sfc", ".smc", ".gba", ".gbc", ".gen", ".md", ".bin", ".rom",
   ".z64", ".n64", ".v64", ".sms", ".pce"]

/-- Patch files collected by the apply-branch expansion: recursively via
`os.walk` for scope `"enable"`, or the flat `os.listdir` for scope
`"directory"` (keeping regular files with the target extension). -/
def collectPatches (env : Env) (scope baseDir targetExt : String) : List String :=
  if scope == "enable" then
    ((env.walk baseDir).map (fun rf =>
      (rf.2.filter (fun fname => endsWithL targetExt.data (pyLower fname).data)).map
        (fun fname => pyJoin rf.1 fname))).flatten
  else if scope == "directory" then
    (env.listdir baseDir).filterMap (fun fname =>
      let full := pyJoin baseDir fname
      if env.isfile full && endsWithL targetExt.data (pyLower fname).data then some full
      else none)
  else []

/-- Modified ROMs collected by the create-branch expansion: absolute
paths with a ROM extension, excluding the base ROM path when one is set. -/
def collectRoms (env : Env) (scope baseDir : String) (absBase : Option String) : List String :=
  let keep := fun (full : String) =>
    romExts.any (fun e => endsWithL e.data (pyLower full).data)
      && (match absBase with | none => true | some b => !(full == b))
  if scope == "enable" then
    ((env.walk baseDir).map (fun rf =>
      rf.2.filterMap (fun fname =>
        let full := env.abspath (pyJoin rf.1 fname)
        if keep full then some full else none))).flatten
  else if scope == "directory" then
    (env.listdir baseDir).filterMap (fun fname =>
      let full := env.abspath (pyJoin baseDir fname)
      if env.isfile full && keep full then some full else none)
  else []

/-- The append loop shared by both expansions:
`seen = set(key(x) for x in original)`; each collected `f` is appended
(and its key added to `seen`) only when `key f` is not in `seen`. -/
def appendDedupAux (key : String → String) :
    List String → List String → List String → List String
  | acc, _, [] => acc
  | acc, seen, f :: rest =>
    if seen.contains (key f) then appendDedupAux key acc seen rest
    else appendDedupAux key (acc ++ [f]) (seen ++ [key f]) rest

/-- Append `collected` to `original`, de-duplicating by `key`. -/
def appendDedupBy (key : String → String) (original collected : List String) : List String :=
  appendDedupAux key original (original.map key) collected

/-- Apply-branch expansion (start_patching step 2): the de-duplication key
is the raw path string (`seen = set(original)`). -/
def expandPatchFiles (env : Env) (scope bty : String) (selected : List String) : List String :=
  let baseDir := dirname (selected.headD "")
  let targetExt := if bty == ".bps" then ".bps" else ".ips"
  appendDedupBy (fun f => f) selected (collectPatches env scope baseDir targetExt)

/-- Create-branch expansion (start_patching step 2 of the create mode):
the de-duplication key is `os.path.abspath`. -/
def expandModified (env : Env) (scope : String) (selected : List String)
    (absBase : Option String) : List String :=
  let baseDir := dirname (selected.headD "")
  appendDedupBy env.abspath selected (collectRoms env scope baseDir absBase)

/- ----------------------------------------------------------------- -/
/- Helper lemmas: hex rendering.                                     -/
/- ----------------------------------------------------------------- -/

/-- Lowercase hexadecimal digit characters (codes 48-57 and 97-102). -/
def isLowerHexDigit (c : Char) : Bool :=
  decide ((48 <= c.toNat && c.toNat <= 57) || (97 <= c.toNat && c.toNat <= 102) : Prop)

/-- The rendered string has the shape `0x` + exactly 8 lowercase hex digits. -/
def isCrcHex (s : String) : Bool :=
  (s.data.length == 10) && startsWithL ['0', 'x'] s.data
    && (s.data.drop 2).all isLowerHexDigit

theorem hexDigit_lower (m : Nat) : isLowerHexDigit (hexDigit m) = true := by
  by_cases h : m < 15
  · interval_cases m <;> rfl
  · obtain ⟨k, rfl⟩ : ∃ k, m = k + 15 := ⟨m - 15, by omega⟩
    rfl

theorem hexRepFuel_all (fuel n : Nat) :
    (hexRepFuel fuel n).all isLowerHexDigit = true := by
  induction fuel generalizing n with
  | zero => rfl
  | succ fuel ih =>
    rw [hexRepFuel]
    split
    · simp [hexDigit_lower]
    · simp [List.all_append, ih, hexDigit_lower]

theorem hexRepFuel_len_le (fuel : Nat) : ∀ k n, n < 16 ^ k → 1 ≤ k →
    (hexRepFuel fuel n).length ≤ k := by
  induction fuel with
  | zero => intro k n _ _; simp [hexRepFuel]
  | succ fuel ih =>
    intro k n hn hk
    rw [hexRepFuel]
    split
    · simpa using hk
    · rename_i h16
      have hk2 : 2 ≤ k := by
        by_contra hlt
        have : k = 1 := by omega
        subst this
        simp [pow_one] at hn
        omega
      have hdiv : n / 16 < 16 ^ (k - 1) := by
        rw [Nat.div_lt_iff_lt_mul (by norm_num : 0 < 16)]
        calc n < 16 ^ k := hn
        _ = 16 ^ (k - 1) * 16 := by
            rw [← pow_succ]
            congr 1
            omega
      have := ih (k - 1) (n / 16) hdiv (by omega)
      simp only [List.length_append, List.length_cons, List.length_nil]
      omega

theorem replicate_zero_all (m : Nat) :
    (List.replicate m '0').all isLowerHexDigit = true := by
  simp only [List.all_eq_true]
  intro x hx
  rw [List.eq_of_mem_replicate hx]
  decide

theorem pyHex010_isCrcHex {n : Nat} (hn : n < 4294967296) :
    isCrcHex (pyHex010 n) = true := by
  have h16 : n < 16 ^ 8 := by
    have he : (16 : Nat) ^ 8 = 4294967296 := by norm_num
    omega
  have hlen : (hexRepFuel 9 n).length ≤ 8 := hexRepFuel_len_le 9 8 n h16 (by norm_num)
  simp only [isCrcHex, pyHex010, pyHex010L, Bool.and_eq_true, beq_iff_eq]
  refine ⟨⟨?_, ?_⟩, ?_⟩
  · simp only [List.length_cons, List.length_append, List.length_replicate]
    omega
  · simp [startsWithL]
  · simp only [List.drop_succ_cons, List.drop_zero, List.all_append]
    simp [replicate_zero_all, hexRepFuel_all]
    exact Or.inr rfl

theorem pyHex010_ne_empty (n : Nat) : pyHex010 n ≠ "" := by
  simp [pyHex010, pyHex010L, String.ext_iff]

theorem leU32_lt (l : List Nat) : leU32 l < 4294967296 := by
  rcases l with _ | ⟨b0, _ | ⟨b1, _ | ⟨b2, _ | ⟨b3, rest⟩⟩⟩⟩ <;> (simp only [leU32]; omega)

theorem crcContent_lt (content : List Nat) : crcContent content < 4294967296 := by
  exact Nat.lt_succ_of_le (Nat.and_le_right)

/- ----------------------------------------------------------------- -/
/- Helper lemmas: metadata reader outcomes.                          -/
/- ----------------------------------------------------------------- -/

/-- The explicit dictionary `get_patch_metadata` builds on success. -/
def mdDict (env : Env) (content : List Nat) : List (String × String) :=
  [("CRC32", pyHex010 (crcContent content)), ("MD5", env.md5hex content),
   ("SHA-1", env.sha1hex content),
   ("ZLE", ⟨rstrip0 (hexBytes ((content.drop 16).take 12))⟩),
   ("Source CRC32", pyHex010 (leU32 ((content.drop (content.length - 12)).take 8))),
   ("Target CRC32",
    pyHex010 (leU32 (((content.drop (content.length - 12)).take 8).drop 4)))]

theorem md_core_ok {env : Env} {p : String} {content : List Nat}
    (hfs : env.fs p = some content) (hlen : 12 ≤ content.length) :
    get_patch_metadata_core env p = .ok (mdDict env content) := by
  simp [get_patch_metadata_core, calculate_crc32, calculate_md5, calculate_sha1,
    calculate_zle_hash, hfs, hlen, mdDict]

theorem md_core_missing {env : Env} {p : String} (hfs : env.fs p = none) :
    get_patch_metadata_core env p = .error .fileNotFound := by
  simp [get_patch_metadata_core, hfs]

theorem md_core_short {env : Env} {p : String} {content : List Nat}
    (hfs : env.fs p = some content) (hlen : content.length < 12) :
    get_patch_metadata_core env p = .error .osError := by
  simp [get_patch_metadata_core, calculate_crc32, calculate_md5, calculate_sha1,
    calculate_zle_hash, hfs]
  omega

theorem md_some_shape {env : Env} {p : String} {d : List (String × String)}
    (h : get_patch_metadata env p = some d) :
    ∃ content, env.fs p = some content ∧ 12 ≤ content.length ∧ d = mdDict env content := by
  rcases hfs : env.fs p with _ | content
  · simp only [get_patch_metadata, md_core_missing hfs, Except.toOption] at h
    exact Option.noConfusion h
  · by_cases hlen : 12 ≤ content.length
    · refine ⟨content, rfl, hlen, ?_⟩
      simp only [get_patch_metadata, md_core_ok hfs hlen, Except.toOption,
        Option.some.injEq] at h
      exact h.symm
    · simp only [get_patch_metadata, md_core_short hfs (by omega), Except.toOption] at h
      exact Option.noConfusion h

/- ----------------------------------------------------------------- -/
/- Helper lemmas: apply_patches structure.                           -/
/- ----------------------------------------------------------------- -/

theorem applyTry_invs (env : Env) (force : Bool) (base patch out baseHex : String)
    (source : Option String) :
    (applyTry env force base patch out baseHex source).2
      = [applyCmd env force baseHex source patch base out] := by
  cases hz : (env.tool (applyCmd env force baseHex source patch base out)).exitZero <;>
    cases he : env.existsAfter out <;>
      simp [applyTry, hz, he]

theorem overrideCond_eq_self (f : Bool) (bh : String) :
    overrideCond f bh (some bh) = false := by
  simp [overrideCond]

theorem overrideCond_mismatch {s bh : String} (hne : s ≠ "") (hbh : bh ≠ s) :
    overrideCond true bh (some s) = true := by
  simp [overrideCond, hne, hbh]

theorem mdDict_lookup_source (env : Env) (content : List Nat) :
    (mdDict env content).lookup "Source CRC32"
      = some (pyHex010 (leU32 ((content.drop (content.length - 12)).take 8))) := by
  rfl

theorem mdDict_lookup_target (env : Env) (content : List Nat) :
    (mdDict env content).lookup "Target CRC32"
      = some (pyHex010 (leU32 (((content.drop (content.length - 12)).take 8).drop 4))) := by
  rfl

/-- A metadata source value, when present, is a rendered 32-bit value. -/
theorem applySource_form {env : Env} {p s : String}
    (h : applySource env p = some s) : ∃ n, n < 4294967296 ∧ s = pyHex010 n := by
  unfold applySource at h
  rcases hm : get_patch_metadata env p with _ | d
  · rw [hm] at h
    exact Option.noConfusion h
  · rw [hm] at h
    obtain ⟨content, _, _, hd⟩ := md_some_shape hm
    subst hd
    have h2 : (mdDict env content).lookup "Source CRC32" = some s := h
    rw [mdDict_lookup_source] at h2
    exact ⟨_, leU32_lt _, (Option.some.inj h2).symm⟩

/-- The per-file state of `apply_patches` (no mismatch for this patch):
either no source CRC is available or it equals the base CRC rendering. -/
def noMismatchB (env : Env) (cb : List Nat) (q : String) : Bool :=
  match applySource env q with
  | some s => pyHex010 (crcContent cb) == s
  | none => true

theorem applyOne_noCrash {env : Env} {base : String} {cb : List Nat}
    (hfs : env.fs base = some cb) (opts : Opts) (p : String) :
    (applyOne env opts base p).2.2 = false := by
  unfold applyOne
  simp only [calculate_crc32, hfs]
  rcases hs : applySource env p with _ | s
  · rfl
  · by_cases hne : pyHex010 (crcContent cb) ≠ s
    · by_cases hf : opts.force_patch
      · simp [hs, hne, hf]
      · simp [hs, hne, hf]
    · simp [hs, hne]

theorem applyOne_invs_one {env : Env} {base : String} {cb : List Nat}
    (hfs : env.fs base = some cb) (opts : Opts) {p : String}
    (hq : noMismatchB env cb p = true) :
    (applyOne env opts base p).2.1.length = 1 := by
  unfold applyOne
  simp only [calculate_crc32, hfs]
  rcases hs : applySource env p with _ | s
  · simp [applyTry_invs]
  · unfold noMismatchB at hq
    rw [hs] at hq
    have heq : pyHex010 (crcContent cb) = s := by
      exact beq_iff_eq.mp hq
    simp [hs, heq, applyTry_invs]

theorem applyAll_noCrash {env : Env} {base : String} {cb : List Nat}
    (hfs : env.fs base = some cb) (opts : Opts) (l : List String) :
    (applyAll env opts base l).2.2 = false := by
  induction l with
  | nil => rfl
  | cons p rest ih =>
    unfold applyAll
    simp [applyOne_noCrash hfs, ih]

theorem applyAll_cons {env : Env} {base : String} {cb : List Nat}
    (hfs : env.fs base = some cb) (opts : Opts) (p : String) (rest : List String) :
    applyAll env opts base (p :: rest)
      = ((applyOne env opts base p).1 ++ (applyAll env opts base rest).1,
         (applyOne env opts base p).2.1 ++ (applyAll env opts base rest).2.1,
         (applyAll env opts base rest).2.2) := by
  rw [applyAll]
  simp only [applyOne_noCrash hfs, Bool.false_eq_true, if_false]

theorem applyAll_append {env : Env} {base : String} {cb : List Nat}
    (hfs : env.fs base = some cb) (opts : Opts) (l1 l2 : List String) :
    applyAll env opts base (l1 ++ l2)
      = ((applyAll env opts base l1).1 ++ (applyAll env opts base l2).1,
         (applyAll env opts base l1).2.1 ++ (applyAll env opts base l2).2.1,
         (applyAll env opts base l2).2.2) := by
  induction l1 with
  | nil => simp [applyAll]
  | cons p rest ih =>
    rw [List.cons_append, applyAll_cons hfs, applyAll_cons hfs, ih]
    simp

theorem applyAll_len {env : Env} {base : String} {cb : List Nat}
    (hfs : env.fs base = some cb) (opts : Opts) {l : List String}
    (hl : ∀ q ∈ l, noMismatchB env cb q = true) :
    (applyAll env opts base l).2.1.length = l.length := by
  induction l with
  | nil => rfl
  | cons p rest ih =>
    rw [applyAll_cons hfs]
    simp only [List.length_append, List.length_cons]
    rw [applyOne_invs_one hfs opts (hl p (by simp)),
      ih (fun q hq => hl q (by simp [hq]))]
    omega

/- ----------------------------------------------------------------- -/
/- Helper lemmas: create_patches structure.                          -/
/- ----------------------------------------------------------------- -/

theorem createAll_cons (env : Env) (opts : Opts) (base rom : String) (rest : List String) :
    createAll env opts base (rom :: rest)
      = ((createOne env opts base rom).1 ++ (createAll env opts base rest).1,
         (createOne env opts base rom).2 ++ (createAll env opts base rest).2) := by
  rfl

theorem createAll_append (env : Env) (opts : Opts) (base : String) (l1 l2 : List String) :
    createAll env opts base (l1 ++ l2)
      = ((createAll env opts base l1).1 ++ (createAll env opts base l2).1,
         (createAll env opts base l1).2 ++ (createAll env opts base l2).2) := by
  induction l1 with
  | nil => simp [createAll]
  | cons rom rest ih =>
    rw [List.cons_append, createAll_cons, createAll_cons, ih]
    simp

/- ----------------------------------------------------------------- -/
/- Helper lemmas: list slices and trailing-zero stripping (ZLE).     -/
/- ----------------------------------------------------------------- -/

theorem take_eq_range_filterMap {α : Type} : ∀ (m : Nat) (l : List α),
    l.take m = (List.range m).filterMap (fun i => l[i]?) := by
  intro m
  induction m with
  | zero => intro l; simp
  | succ m ih =>
    intro l
    cases l with
    | nil => simp
    | cons x xs =>
      rw [List.range_succ_eq_map]
      simp only [List.filterMap_cons, List.getElem?_cons_zero, List.filterMap_map]
      have hcomp : ((fun i => (x :: xs)[i]?) ∘ Nat.succ) = fun i => xs[i]? := by
        funext i
        simp
      rw [hcomp, ← ih xs, List.take_succ_cons]

theorem dropTake_eq_range {α : Type} (l : List α) (n m : Nat) :
    (l.drop n).take m = (List.range m).filterMap (fun i => l[n + i]?) := by
  rw [take_eq_range_filterMap]
  simp [List.getElem?_drop]

theorem hexBytes_length (l : List Nat) : (hexBytes l).length = 2 * l.length := by
  induction l with
  | nil => rfl
  | cons b bs ih => simp [hexBytes, ih]; omega

theorem takeWhile_zero_replicate (l : List Char) :
    l.takeWhile (fun c => c == '0')
      = List.replicate (l.takeWhile (fun c => c == '0')).length '0' := by
  induction l with
  | nil => rfl
  | cons c t ih =>
    by_cases h : c == '0'
    · have hc : c = '0' := beq_iff_eq.mp h
      subst hc
      simp only [List.takeWhile_cons, beq_self_eq_true, if_true]
      rw [List.length_cons, List.replicate_succ]
      exact congrArg _ ih
    · simp [List.takeWhile_cons, h]

theorem rstrip0_decomp (l : List Char) :
    l = rstrip0 l ++ List.replicate (l.length - (rstrip0 l).length) '0' := by
  have hsplit := List.takeWhile_append_dropWhile (p := fun c => c == '0') (l := l.reverse)
  have hlen : (l.reverse.takeWhile (fun c => c == '0')).length
      + (l.reverse.dropWhile (fun c => c == '0')).length = l.length := by
    have h := congrArg List.length hsplit
    rw [List.length_append, List.length_reverse] at h
    exact h
  have hrl : (rstrip0 l).length = (l.reverse.dropWhile (fun c => c == '0')).length := by
    simp [rstrip0]
  conv_lhs => rw [← List.reverse_reverse l, ← hsplit]
  rw [List.reverse_append]
  congr 1
  rw [takeWhile_zero_replicate, List.reverse_replicate]
  congr 1
  omega

theorem dropWhile_head_not {α : Type} (p : α → Bool) : ∀ (l : List α) (a : α),
    (l.dropWhile p).head? = some a → p a = false := by
  intro l
  induction l with
  | nil => intro a h; simp [List.dropWhile] at h
  | cons c t ih =>
    intro a h
    by_cases hc : p c
    · rw [List.dropWhile_cons_of_pos hc] at h
      exact ih a h
    · rw [List.dropWhile_cons_of_neg hc] at h
      simp only [List.head?_cons, Option.some.injEq] at h
      subst h
      simp only [Bool.not_eq_true] at hc
      exact hc

theorem rstrip0_last {l : List Char} {a : Char}
    (h : (rstrip0 l).getLast? = some a) : a ≠ '0' := by
  rw [rstrip0, List.getLast?_reverse] at h
  have := dropWhile_head_not (fun c => c == '0') l.reverse a h
  simpa using this

/- ----------------------------------------------------------------- -/
/- Helper lemmas: the expansion append loop.                         -/
/- ----------------------------------------------------------------- -/

theorem appendDedupAux_spec (key : String → String) :
    ∀ (coll acc : List String),
      ∃ ext, appendDedupAux key acc (acc.map key) coll = acc ++ ext
        ∧ (∀ x ∈ ext, x ∈ coll ∧ ¬ key x ∈ acc.map key)
        ∧ ((acc.map key).Nodup → ((acc ++ ext).map key).Nodup) := by
  intro coll
  induction coll with
  | nil =>
    intro acc
    exact ⟨[], by simp [appendDedupAux], by simp, by simp⟩
  | cons f rest ih =>
    intro acc
    by_cases hmem : (acc.map key).contains (key f)
    · obtain ⟨ext, h1, h2, h3⟩ := ih acc
      refine ⟨ext, ?_, ?_, h3⟩
      · simp only [appendDedupAux, hmem, if_true]
        exact h1
      · intro x hx
        obtain ⟨hx1, hx2⟩ := h2 x hx
        exact ⟨List.mem_cons_of_mem _ hx1, hx2⟩
    · obtain ⟨ext, h1, h2, h3⟩ := ih (acc ++ [f])
      have hmap : (acc ++ [f]).map key = acc.map key ++ [key f] := by simp
      have hfnot : ¬ key f ∈ acc.map key := by
        intro hc
        exact hmem (List.elem_iff.mpr hc)
      refine ⟨f :: ext, ?_, ?_, ?_⟩
      · simp only [appendDedupAux, hmem, if_false, Bool.false_eq_true]
        rw [← hmap, h1]
        simp
      · intro x hx
        rcases List.mem_cons.mp hx with hx | hx
        · subst hx
          exact ⟨by simp, hfnot⟩
        · obtain ⟨hx1, hx2⟩ := h2 x hx
          refine ⟨List.mem_cons_of_mem _ hx1, fun hc => hx2 ?_⟩
          rw [hmap]
          exact List.mem_append_left _ hc
      · intro hnd
        have hnd2 : ((acc ++ [f]).map key).Nodup := by
          rw [hmap]
          simp [List.nodup_append, hnd, hfnot]
        have h4 := h3 hnd2
        rw [show acc ++ f :: ext = (acc ++ [f]) ++ ext by simp]
        exact h4

/- ----------------------------------------------------------------- -/
/- Helper lemmas: the four decision rows of apply_patches.           -/
/- ----------------------------------------------------------------- -/

theorem applySource_none {env : Env} {patch : String}
    (h : get_patch_metadata env patch = none) : applySource env patch = none := by
  unfold applySource
  rw [h]

theorem applyTry_invs_plain {env : Env} {f : Bool} {base patch out bh : String}
    {s : Option String} (h : overrideCond f bh s = false) :
    (applyTry env f base patch out bh s).2 = [[env.flips, "--apply", patch, base, out]] := by
  rw [applyTry_invs]
  simp [applyCmd, h]

theorem applyTry_invs_override {env : Env} {f : Bool} {base patch out bh : String}
    {s : Option String} (h : overrideCond f bh s = true) :
    (applyTry env f base patch out bh s).2
      = [[env.flips, "--apply", "--ignore-checksum", patch, base, out]] := by
  rw [applyTry_invs]
  simp [applyCmd, h]

theorem applyOne_nometa {env : Env} {opts : Opts} {base patch : String} {cb : List Nat}
    (hfs : env.fs base = some cb) (hm : get_patch_metadata env patch = none) :
    applyOne env opts base patch
      = ((applyTry env opts.force_patch base patch (outPath opts base patch)
            (pyHex010 (crcContent cb)) none).1,
         (applyTry env opts.force_patch base patch (outPath opts base patch)
            (pyHex010 (crcContent cb)) none).2, false) := by
  unfold applyOne
  simp only [calculate_crc32, hfs]
  rw [applySource_none hm]

theorem applyOne_match {env : Env} {opts : Opts} {base patch : String} {cb : List Nat}
    {s : String} (hfs : env.fs base = some cb) (hs : applySource env patch = some s)
    (heq : pyHex010 (crcContent cb) = s) :
    applyOne env opts base patch
      = (("CRC32 match for " ++ basename patch ++ ". Proceeding with patch.")
           :: (applyTry env opts.force_patch base patch (outPath opts base patch)
                (pyHex010 (crcContent cb)) (some s)).1,
         (applyTry env opts.force_patch base patch (outPath opts base patch)
            (pyHex010 (crcContent cb)) (some s)).2, false) := by
  unfold applyOne
  simp only [calculate_crc32, hfs]
  rw [hs]
  simp [heq]

theorem applyOne_skip {env : Env} {opts : Opts} {base patch : String} {cb : List Nat}
    {s : String} (hfs : env.fs base = some cb) (hs : applySource env patch = some s)
    (hne : pyHex010 (crcContent cb) ≠ s) (hf : opts.force_patch = false) :
    applyOne env opts base patch
      = (["Skipping patching for " ++ basename patch ++ " due to CRC32 mismatch."],
         [], false) := by
  unfold applyOne
  simp only [calculate_crc32, hfs]
  rw [hs]
  simp [hne, hf]

theorem applyOne_force {env : Env} {opts : Opts} {base patch : String} {cb : List Nat}
    {s : String} (hfs : env.fs base = some cb) (hs : applySource env patch = some s)
    (hne : pyHex010 (crcContent cb) ≠ s) (hf : opts.force_patch = true) :
    applyOne env opts base patch
      = (("Force to Patch enabled. Applying patch for " ++ basename patch
            ++ " despite CRC32 mismatch.")
           :: (applyTry env opts.force_patch base patch (outPath opts base patch)
                (pyHex010 (crcContent cb)) (some s)).1,
         (applyTry env opts.force_patch base patch (outPath opts base patch)
            (pyHex010 (crcContent cb)) (some s)).2, false) := by
  unfold applyOne
  simp only [calculate_crc32, hfs]
  rw [hs]
  simp [hne, hf]

/-- A source value obtained from the metadata reader is never the empty
string, so Python finds it truthy. -/
theorem applySource_ne_empty {env : Env} {patch s : String}
    (hs : applySource env patch = some s) : s ≠ "" := by
  obtain ⟨n, _, rfl⟩ := applySource_form hs
  exact pyHex010_ne_empty n

/-- `leU32` only inspects the first four bytes. -/
theorem leU32_take {l : List Nat} {n : Nat} (h : 4 ≤ n) : leU32 (l.take n) = leU32 l := by
  obtain ⟨k, rfl⟩ : ∃ k, n = k + 4 := ⟨n - 4, by omega⟩
  rcases l with _ | ⟨b0, _ | ⟨b1, _ | ⟨b2, _ | ⟨b3, r⟩⟩⟩⟩ <;>
    simp [leU32, List.take_succ_cons]

/-- Helper for stating the value formats of C10: the predicate holds of the
value found under a key. -/
def optHolds (pred : String → Bool) : Option String → Bool
  | some v => pred v
  | none => false

/-- C2: for every patch file of length at least 12 whose last 12 bytes are
b0..b11, the metadata reader returns the little-endian u32 of b0..b3 as
Source CRC32 and of b4..b7 as Target CRC32 (b8..b11 ignored), each rendered
as 0x plus exactly 8 lowercase hex digits. -/
theorem C2_trailer_parse (env : Env) (p : String) (pre t : List Nat)
    (ht : t.length = 12) (hfs : env.fs p = some (pre ++ t)) :
    metaLookup env p "Source CRC32" = some (pyHex010 (leU32 (t.take 4)))
    ∧ metaLookup env p "Target CRC32" = some (pyHex010 (leU32 ((t.drop 4).take 4)))
    ∧ isCrcHex (pyHex010 (leU32 (t.take 4))) = true
    ∧ isCrcHex (pyHex010 (leU32 ((t.drop 4).take 4))) = true := by
  have hlen : 12 ≤ (pre ++ t).length := by simp [ht]
  have hmd : get_patch_metadata env p = some (mdDict env (pre ++ t)) := by
    rw [get_patch_metadata, md_core_ok hfs hlen]
    rfl
  have hdrop : (pre ++ t).drop ((pre ++ t).length - 12) = t := by
    have h12 : (pre ++ t).length - 12 = pre.length := by
      simp [List.length_append, ht]
    rw [h12, List.drop_left]
  have hsrc : leU32 ((pre ++ t).drop ((pre ++ t).length - 12) |>.take 8)
      = leU32 (t.take 4) := by
    rw [hdrop, leU32_take (by norm_num), leU32_take (by norm_num)]
  have htgt : leU32 (((pre ++ t).drop ((pre ++ t).length - 12) |>.take 8).drop 4)
      = leU32 ((t.drop 4).take 4) := by
    rw [hdrop, List.drop_take, leU32_take (by norm_num)]
  refine ⟨?_, ?_, ?_, ?_⟩
  · rw [metaLookup, hmd]
    show (mdDict env (pre ++ t)).lookup "Source CRC32" = _
    rw [mdDict_lookup_source, hsrc]
  · rw [metaLookup, hmd]
    show (mdDict env (pre ++ t)).lookup "Target CRC32" = _
    rw [mdDict_lookup_target, htgt]
  · exact pyHex010_isCrcHex (leU32_lt _)
  · exact pyHex010_isCrcHex (leU32_lt _)

/-- C3: the metadata reader is total over its inputs (it never raises to
its caller): an unopenable file and a file too short for the trailer each
yield the explicit no-metadata result together with exactly one printed
diagnostic, and a readable file of sufficient length yields metadata with
no diagnostic. -/
theorem C3_metadata_total_recovery :
    (∀ (env : Env) (p : String), env.fs p = none →
      get_patch_metadata env p = none
      ∧ get_patch_metadata_prints env p
          = ["Error reading patch file " ++ p ++ ": " ++ PyErr.text .fileNotFound])
    ∧ (∀ (env : Env) (p : String) (content : List Nat),
        env.fs p = some content → content.length < 12 →
        get_patch_metadata env p = none
        ∧ get_patch_metadata_prints env p
            = ["Error reading patch file " ++ p ++ ": " ++ PyErr.text .osError])
    ∧ (∀ (env : Env) (p : String) (content : List Nat),
        env.fs p = some content → 12 ≤ content.length →
        (get_patch_metadata env p).isSome = true
        ∧ get_patch_metadata_prints env p = []) := by
  refine ⟨?_, ?_, ?_⟩
  · intro env p hfs
    rw [get_patch_metadata, get_patch_metadata_prints, md_core_missing hfs]
    exact ⟨rfl, rfl⟩
  · intro env p content hfs hlen
    rw [get_patch_metadata, get_patch_metadata_prints, md_core_short hfs hlen]
    exact ⟨rfl, rfl⟩
  · intro env p content hfs hlen
    rw [get_patch_metadata, get_patch_metadata_prints, md_core_ok hfs hlen]
    exact ⟨rfl, rfl⟩

/-- C4: the header-slice computation returns, without failing, the hex of
the bytes at offsets 16..27 (whatever of them exist, so at most 24 hex
characters before trimming, and the empty string for a file of at most 16
bytes) with trailing '0' characters stripped from the rendering. -/
theorem C4_zle_header_slice (fs : FS) (p : String) (content : List Nat)
    (hfs : fs p = some content) :
    calculate_zle_hash fs p
      = .ok ⟨rstrip0 (hexBytes ((List.range 12).filterMap (fun i => content[16 + i]?)))⟩
    ∧ (hexBytes ((content.drop 16).take 12)).length ≤ 24
    ∧ (content.length ≤ 16 → calculate_zle_hash fs p = .ok "")
    ∧ hexBytes ((content.drop 16).take 12)
        = rstrip0 (hexBytes ((content.drop 16).take 12))
          ++ List.replicate ((hexBytes ((content.drop 16).take 12)).length
              - (rstrip0 (hexBytes ((content.drop 16).take 12))).length) '0'
    ∧ ((rstrip0 (hexBytes ((content.drop 16).take 12))).getLast? == some '0') = false := by
  refine ⟨?_, ?_, ?_, rstrip0_decomp _, ?_⟩
  · rw [calculate_zle_hash, hfs]
    show Except.ok (⟨rstrip0 (hexBytes ((content.drop 16).take 12))⟩ : String) = _
    rw [dropTake_eq_range]
  · rw [hexBytes_length]
    have := List.length_take_le 12 (content.drop 16)
    omega
  · intro hshort
    have hdrop : content.drop 16 = [] := by
      apply List.drop_eq_nil_of_le
      omega
    rw [calculate_zle_hash, hfs]
    show Except.ok (⟨rstrip0 (hexBytes ((content.drop 16).take 12))⟩ : String) = _
    rw [hdrop]
    rfl
  · rcases hlast : (rstrip0 (hexBytes ((content.drop 16).take 12))).getLast? with _ | a
    · rfl
    · have := rstrip0_last hlast
      simpa using this

/-- C8: an I/O failure opening a file for hashing propagates out of each of
the four hash functions as an error to the caller (and, at the unguarded
base-ROM hashing call site of apply_patches, aborts the loop), whereas the
metadata reader recovers locally with a no-metadata result and a printed
diagnostic. -/
theorem C8_hash_io_propagates (env : Env) (opts : Opts) (p patch : String)
    (hfs : env.fs p = none) :
    calculate_crc32 env.fs p = .error .fileNotFound
    ∧ calculate_md5 env.md5hex env.fs p = .error .fileNotFound
    ∧ calculate_sha1 env.sha1hex env.fs p = .error .fileNotFound
    ∧ calculate_zle_hash env.fs p = .error .fileNotFound
    ∧ get_patch_metadata env p = none
    ∧ get_patch_metadata_prints env p ≠ []
    ∧ (applyOne env opts p patch).2.2 = true := by
  refine ⟨?_, ?_, ?_, ?_, ?_, ?_, ?_⟩
  · rw [calculate_crc32, hfs]
  · rw [calculate_md5, hfs]
  · rw [calculate_sha1, hfs]
  · rw [calculate_zle_hash, hfs]
  · rw [get_patch_metadata, md_core_missing hfs]
    rfl
  · rw [get_patch_metadata_prints, md_core_missing hfs]
    simp
  · unfold applyOne
    simp only [calculate_crc32, hfs]

/-- C10: every non-None metadata result carries exactly the six keys in
order, its CRC32, Source CRC32 and Target CRC32 values are 0x plus exactly
8 lowercase hex digits, the Source CRC32 lookup of apply_patches therefore
succeeds, and the no-metadata decision row applies exactly when the reader
returned None. -/
theorem C10_metadata_invariant :
    (∀ (env : Env) (p : String) (d : List (String × String)),
      get_patch_metadata env p = some d →
        d.map Prod.fst = ["CRC32", "MD5", "SHA-1", "ZLE", "Source CRC32", "Target CRC32"]
        ∧ optHolds isCrcHex (d.lookup "CRC32") = true
        ∧ optHolds isCrcHex (d.lookup "Source CRC32") = true
        ∧ optHolds isCrcHex (d.lookup "Target CRC32") = true
        ∧ (d.lookup "Source CRC32").isSome = true)
    ∧ (∀ (env : Env) (p : String),
        (applySource env p).isNone = (get_patch_metadata env p).isNone) := by
  constructor
  · intro env p d h
    obtain ⟨content, _, _, rfl⟩ := md_some_shape h
    refine ⟨rfl, ?_, ?_, ?_, ?_⟩
    · show optHolds isCrcHex (some (pyHex010 (crcContent content))) = true
      simp [optHolds, pyHex010_isCrcHex (crcContent_lt content)]
    · rw [mdDict_lookup_source]
      simp [optHolds, pyHex010_isCrcHex (leU32_lt _)]
    · rw [mdDict_lookup_target]
      simp [optHolds, pyHex010_isCrcHex (leU32_lt _)]
    · rw [mdDict_lookup_source]
      rfl
  · intro env p
    rcases hm : get_patch_metadata env p with _ | d
    · rw [applySource_none hm]
      rfl
    · obtain ⟨content, _, _, rfl⟩ := md_some_shape hm
      rw [applySource, hm]
      simp only [mdDict_lookup_source]
      rfl

/-- C1: the apply compatibility decision per patch file — no metadata:
plain command with no CRC-comparison report; matching source CRC: proceed
normally; mismatch without override: skip with a mismatch report and no
invocation; mismatch with override: the --ignore-checksum command with the
override reported.  Batchwise, with override disabled and exactly one
mismatching patch, exactly N-1 invocations occur and the skip message
names that patch. -/
theorem C1_apply_decision_and_batch :
    (∀ (env : Env) (opts : Opts) (base patch : String) (cb : List Nat),
      env.fs base = some cb → get_patch_metadata env patch = none →
      (applyOne env opts base patch).1
          = (applyTry env opts.force_patch base patch (outPath opts base patch)
              (pyHex010 (crcContent cb)) none).1
        ∧ (applyOne env opts base patch).2.1
            = [[env.flips, "--apply", patch, base, outPath opts base patch]]
        ∧ (applyOne env opts base patch).2.2 = false)
    ∧ (∀ (env : Env) (opts : Opts) (base patch : String) (cb : List Nat) (s : String),
        env.fs base = some cb → applySource env patch = some s →
        pyHex010 (crcContent cb) = s →
        (applyOne env opts base patch).1
            = ("CRC32 match for " ++ basename patch ++ ". Proceeding with patch.")
              :: (applyTry env opts.force_patch base patch (outPath opts base patch)
                   (pyHex010 (crcContent cb)) (some s)).1
          ∧ (applyOne env opts base patch).2.1
              = [[env.flips, "--apply", patch, base, outPath opts base patch]]
          ∧ (applyOne env opts base patch).2.2 = false)
    ∧ (∀ (env : Env) (opts : Opts) (base patch : String) (cb : List Nat) (s : String),
        env.fs base = some cb → applySource env patch = some s →
        pyHex010 (crcContent cb) ≠ s → opts.force_patch = false →
        applyOne env opts base patch
          = (["Skipping patching for " ++ basename patch ++ " due to CRC32 mismatch."],
             [], false))
    ∧ (∀ (env : Env) (opts : Opts) (base patch : String) (cb : List Nat) (s : String),
        env.fs base = some cb → applySource env patch = some s →
        pyHex010 (crcContent cb) ≠ s → opts.force_patch = true →
        (applyOne env opts base patch).1
            = ("Force to Patch enabled. Applying patch for " ++ basename patch
                ++ " despite CRC32 mismatch.")
              :: (applyTry env opts.force_patch base patch (outPath opts base patch)
                   (pyHex010 (crcContent cb)) (some s)).1
          ∧ (applyOne env opts base patch).2.1
              = [[env.flips, "--apply", "--ignore-checksum", patch, base,
                  outPath opts base patch]]
          ∧ (applyOne env opts base patch).2.2 = false)
    ∧ (∀ (env : Env) (opts : Opts) (base : String) (cb : List Nat)
         (l1 l2 : List String) (pk sk : String),
        env.fs base = some cb → opts.force_patch = false →
        (∀ q ∈ l1 ++ l2, noMismatchB env cb q = true) →
        applySource env pk = some sk → pyHex010 (crcContent cb) ≠ sk →
        (apply_patches env opts (some base) (l1 ++ pk :: l2)).2.1.length
            = l1.length + l2.length
          ∧ ("Skipping patching for " ++ basename pk ++ " due to CRC32 mismatch.")
              ∈ (apply_patches env opts (some base) (l1 ++ pk :: l2)).1) := by
  refine ⟨?_, ?_, ?_, ?_, ?_⟩
  · intro env opts base patch cb hfs hm
    rw [applyOne_nometa hfs hm]
    refine ⟨rfl, ?_, rfl⟩
    exact applyTry_invs_plain (by simp [overrideCond])
  · intro env opts base patch cb s hfs hs heq
    rw [applyOne_match hfs hs heq]
    refine ⟨rfl, ?_, rfl⟩
    refine applyTry_invs_plain ?_
    rw [← heq]
    exact overrideCond_eq_self _ _
  · intro env opts base patch cb s hfs hs hne hf
    exact applyOne_skip hfs hs hne hf
  · intro env opts base patch cb s hfs hs hne hf
    rw [applyOne_force hfs hs hne hf]
    refine ⟨rfl, ?_, rfl⟩
    refine applyTry_invs_override ?_
    rw [hf]
    exact overrideCond_mismatch (applySource_ne_empty hs) hne
  · intro env opts base cb l1 l2 pk sk hfs hf hq hs hne
    have hskip := applyOne_skip hfs hs hne hf
    have hq1 : ∀ q ∈ l1, noMismatchB env cb q = true := by
      intro q hqm
      exact hq q (List.mem_append_left _ hqm)
    have hq2 : ∀ q ∈ l2, noMismatchB env cb q = true := by
      intro q hqm
      exact hq q (List.mem_append_right _ hqm)
    have hall : applyAll env opts base (l1 ++ pk :: l2)
        = ((applyAll env opts base l1).1 ++ (applyOne env opts base pk).1
             ++ (applyAll env opts base l2).1,
           (applyAll env opts base l1).2.1 ++ (applyOne env opts base pk).2.1
             ++ (applyAll env opts base l2).2.1,
           (applyAll env opts base l2).2.2) := by
      rw [applyAll_append hfs, applyAll_cons hfs]
      simp
    have hcrash := applyAll_noCrash hfs opts (l1 ++ pk :: l2)
    have happ : apply_patches env opts (some base) (l1 ++ pk :: l2)
        = ((applyAll env opts base (l1 ++ pk :: l2)).1 ++ ["Patching process is complete."],
           (applyAll env opts base (l1 ++ pk :: l2)).2.1, false) := by
      show (let r := applyAll env opts base (l1 ++ pk :: l2);
            if r.2.2 = true then r
            else (r.1 ++ ["Patching process is complete."], r.2.1, false)) = _
      simp only [hcrash, Bool.false_eq_true, if_false]
    rw [happ]
    constructor
    · show (applyAll env opts base (l1 ++ pk :: l2)).2.1.length = _
      rw [hall]
      simp only [List.length_append]
      rw [hskip]
      rw [applyAll_len hfs opts hq1, applyAll_len hfs opts hq2]
      simp
    · show _ ∈ (applyAll env opts base (l1 ++ pk :: l2)).1 ++ ["Patching process is complete."]
      rw [hall, hskip]
      simp

/-- C5 (amended): for every modified file distinct, by absolute path, from
the base file, an equal CRC-32 makes create_patches skip it with the
identical-files report and no tool invocation; and when the tool itself
exits non-zero with "The files are identical" in its standard output, the
same kind of Skipping report is logged instead of an error report. -/
theorem C5_identical_skip_amended :
    (∀ (env : Env) (opts : Opts) (base rom : String) (cb cr : List Nat),
      env.abspath rom ≠ env.abspath base →
      env.fs base = some cb → env.fs rom = some cr →
      crcContent cb = crcContent cr →
      createOne env opts base rom
        = (["Skipping " ++ basename rom
             ++ ": Base and Modified are identical (no patch needed)."], []))
    ∧ (∀ (env : Env) (opts : Opts) (base rom : String) (cb cr : List Nat),
        env.abspath rom ≠ env.abspath base →
        env.fs base = some cb → env.fs rom = some cr →
        crcContent cb ≠ crcContent cr →
        (env.tool [env.flips, "--create", base, rom, createOutPath opts rom]).exitZero
            = false →
        pyIn "The files are identical"
            (pyStrip (env.tool
              [env.flips, "--create", base, rom, createOutPath opts rom]).stdout) = true →
        createOne env opts base rom
          = (["Skipping " ++ basename rom ++ ": files are identical."],
             [[env.flips, "--create", base, rom, createOutPath opts rom]])) := by
  constructor
  · intro env opts base rom cb cr habs hcb hcr heq
    unfold createOne
    simp [calculate_crc32, hcb, hcr, habs, heq]
  · intro env opts base rom cb cr habs hcb hcr hne hz hident
    unfold createOne
    simp [calculate_crc32, hcb, hcr, habs, hne, hz, hident]

/-- C6: a modified entry whose absolute path equals the base file's is
skipped with the self-comparison error, contributes no tool invocation
(hence no output file), and the remaining entries are still processed,
with the completion report still emitted once. -/
theorem C6_create_self_comparison (env : Env) (opts : Opts) (base : String)
    (l1 l2 : List String) (r : String) (habs : env.abspath r = env.abspath base) :
    create_patches env opts (some base) (l1 ++ r :: l2)
      = ((createAll env opts base l1).1
           ++ "Error: Base ROM and Modified ROM must cannot be the same file. Ignoring this one."
           :: ((createAll env opts base l2).1 ++ ["Patch creation process is complete."]),
         (createAll env opts base l1).2 ++ (createAll env opts base l2).2) := by
  have hone : createOne env opts base r
      = (["Error: Base ROM and Modified ROM must cannot be the same file. Ignoring this one."],
         []) := by
    unfold createOne
    simp [habs]
  have hempty : (l1 ++ r :: l2).isEmpty = false := by
    cases l1 <;> rfl
  show (if (l1 ++ r :: l2).isEmpty then _ else _) = _
  rw [hempty]
  simp only [Bool.false_eq_true, if_false]
  rw [createAll_append, createAll_cons, hone]
  simp

/-- C7: when the external apply command exits non-zero, an existing output
file downgrades the failure to a soft success reported with the output
location, otherwise the command line and the captured stdout/stderr are
reported; and the loop always continues with the remaining patch files. -/
theorem C7_apply_failure_handling :
    (∀ (env : Env) (force : Bool) (base patch out baseHex : String) (source : Option String),
      (env.tool (applyCmd env force baseHex source patch base out)).exitZero = false →
      env.existsAfter out = true →
      applyTry env force base patch out baseHex source
        = (["Successfully applied patch despite errors: [" ++ basename out ++ "]",
            "Output file location: " ++ out],
           [applyCmd env force baseHex source patch base out]))
    ∧ (∀ (env : Env) (force : Bool) (base patch out baseHex : String) (source : Option String),
        (env.tool (applyCmd env force baseHex source patch base out)).exitZero = false →
        env.existsAfter out = false →
        applyTry env force base patch out baseHex source
          = (["Error applying patch [" ++ basename patch ++ "]:",
              "  Command: " ++ String.intercalate " "
                 (applyCmd env force baseHex source patch base out),
              "  Stdout: "
                ++ (if (env.tool (applyCmd env force baseHex source patch base out)).stdout == ""
                    then "No output"
                    else pyStrip (env.tool (applyCmd env force baseHex source patch base out)).stdout),
              "  Stderr: "
                ++ (if (env.tool (applyCmd env force baseHex source patch base out)).stderr == ""
                    then "Unknown error occurred."
                    else pyStrip (env.tool (applyCmd env force baseHex source patch base out)).stderr)],
             [applyCmd env force baseHex source patch base out]))
    ∧ (∀ (env : Env) (opts : Opts) (base : String) (cb : List Nat)
         (p : String) (rest : List String),
        env.fs base = some cb →
        applyAll env opts base (p :: rest)
          = ((applyOne env opts base p).1 ++ (applyAll env opts base rest).1,
             (applyOne env opts base p).2.1 ++ (applyAll env opts base rest).2.1,
             (applyAll env opts base rest).2.2)) := by
  refine ⟨?_, ?_, ?_⟩
  · intro env force base patch out baseHex source hz he
    simp [applyTry, hz, he]
  · intro env force base patch out baseHex source hz he
    simp [applyTry, hz, he]
  · intro env opts base cb p rest hfs
    exact applyAll_cons hfs opts p rest

/-- C9 (amended): the expanded search appends the collected files after
the originally selected entries in their original order; the apply branch
de-duplicates by the literal path string, the create branch by absolute
path, and under pairwise-distinct originals (for the respective key) no
key occurs twice in the final list. -/
theorem C9_expansion_amended :
    (∀ (env : Env) (scope bty : String) (sel : List String), sel.Nodup →
      (expandPatchFiles env scope bty sel).take sel.length = sel
      ∧ ((expandPatchFiles env scope bty sel).drop sel.length).all
          (fun f => (collectPatches env scope (dirname (sel.headD ""))
              (if bty == ".bps" then ".bps" else ".ips")).contains f
            && !(sel.contains f)) = true
      ∧ (expandPatchFiles env scope bty sel).Nodup)
    ∧ (∀ (env : Env) (scope : String) (sel : List String) (absBase : Option String),
        (sel.map env.abspath).Nodup →
        (expandModified env scope sel absBase).take sel.length = sel
        ∧ ((expandModified env scope sel absBase).drop sel.length).all
            (fun f => (collectRoms env scope (dirname (sel.headD "")) absBase).contains f
              && !((sel.map env.abspath).contains (env.abspath f))) = true
        ∧ ((expandModified env scope sel absBase).map env.abspath).Nodup) := by
  constructor
  · intro env scope bty sel hnd
    obtain ⟨ext, h1, h2, h3⟩ :=
      appendDedupAux_spec (fun f => f)
        (collectPatches env scope (dirname (sel.headD ""))
          (if bty == ".bps" then ".bps" else ".ips")) sel
    have hres : expandPatchFiles env scope bty sel = sel ++ ext := h1
    refine ⟨?_, ?_, ?_⟩
    · rw [hres, List.take_left]
    · rw [hres, List.drop_left, List.all_eq_true]
      intro f hf
      obtain ⟨hf1, hf2⟩ := h2 f hf
      rw [List.map_id'] at hf2
      simp only [Bool.and_eq_true, Bool.not_eq_true']
      constructor
      · exact List.elem_iff.mpr hf1
      · rw [← Bool.not_eq_true]
        intro hc
        exact hf2 (List.elem_iff.mp hc)
    · have := h3 (by rwa [List.map_id'])
      rw [List.map_id'] at this
      rwa [hres]
  · intro env scope sel absBase hnd
    obtain ⟨ext, h1, h2, h3⟩ :=
      appendDedupAux_spec env.abspath
        (collectRoms env scope (dirname (sel.headD "")) absBase) sel
    have hres : expandModified env scope sel absBase = sel ++ ext := h1
    refine ⟨?_, ?_, ?_⟩
    · rw [hres, List.take_left]
    · rw [hres, List.drop_left, List.all_eq_true]
      intro f hf
      obtain ⟨hf1, hf2⟩ := h2 f hf
      simp only [Bool.and_eq_true, Bool.not_eq_true']
      constructor
      · exact List.elem_iff.mpr hf1
      · rw [← Bool.not_eq_true]
        intro hc
        exact hf2 (List.elem_iff.mp hc)
    · rw [hres]
      exact h3 hnd

/- ----------------------------------------------------------------- -/
/- Concrete environments used by the witnesses.                      -/
/- ----------------------------------------------------------------- -/

/-- The trailer bytes of testable property 3: little-endian 0xDEADBEEF,
little-endian 0x12345678, then an arbitrary 4-byte tail. -/
def wTrailer : List Nat := [0xEF, 0xBE, 0xAD, 0xDE, 0x78, 0x56, 0x34, 0x12, 0, 0, 0, 0]

/-- A 20-byte file whose header slice is AB CD 10 00. -/
def wZle : List Nat := List.replicate 16 0 ++ [0xAB, 0xCD, 0x10, 0]

/-- Witness file system: an empty base ROM (CRC32 0), one patch whose
declared source CRC matches it, one that mismatches, one 3-byte non-patch
file, the DEADBEEF trailer patch and the header-slice file. -/
def wFS : FS := fun p =>
  if p = "base.rom" then some [] else
  if p = "a.bps" then some [0, 0, 0, 0, 9, 9, 9, 9, 5, 5, 5, 5] else
  if p = "b.bps" then some [1, 0, 0, 0, 9, 9, 9, 9, 5, 5, 5, 5] else
  if p = "c.bps" then some [1, 2, 3] else
  if p = "t.bps" then some wTrailer else
  if p = "z.rom" then some wZle else
  none

/-- Witness environment: succeeding tool, identity abspath. -/
def wEnv : Env where
  fs := wFS
  md5hex := fun _ => ""
  sha1hex := fun _ => ""
  abspath := fun p => p
  flips := "flips.exe"
  tool := fun _ => ⟨true, "", ""⟩
  existsAfter := fun _ => false
  listdir := fun _ => []
  isfile := fun _ => true
  walk := fun _ => []

/-- Default options: no override, no suffix, .bps format. -/
def wOpts : Opts := ⟨false, false, ".bps"⟩

/-- Options with Force to Patch enabled. -/
def wOptsF : Opts := ⟨true, false, ".bps"⟩

/-- File system for the create-side witnesses: a 2-byte base, a
byte-identical modified file and a distinct modified file. -/
def w5FS : FS := fun p =>
  if p = "b.rom" then some [1, 2] else
  if p = "m1.rom" then some [1, 2] else
  if p = "m2.rom" then some [3, 4, 5] else none

/-- Create-side environment with a succeeding tool. -/
def w5Env : Env := { wEnv with fs := w5FS }

/-- Create-side environment whose tool fails with the identical-files
message on standard output. -/
def w5EnvIdent : Env :=
  { w5Env with tool := fun _ => ⟨false, " The files are identical ", ""⟩ }

/-- Apply-side environment with a failing tool and an output file that
exists after the run. -/
def w7EnvA : Env :=
  { wEnv with tool := fun _ => ⟨false, " boom ", ""⟩, existsAfter := fun _ => true }

/-- Apply-side environment with a failing tool and no output file. -/
def w7EnvB : Env :=
  { wEnv with tool := fun _ => ⟨false, "", "err"⟩, existsAfter := fun _ => false }

/-- Expansion environment: directory "./a" holds b.bps and c.bps, and
abspath normalizes a leading "./". -/
def w9Env : Env :=
  { wEnv with
    listdir := fun d => if d = "./a" then ["b.bps", "c.bps"] else [],
    abspath := fun p => if p.data.take 2 = ['.', '/'] then ⟨p.data.drop 2⟩ else p }

/- ----------------------------------------------------------------- -/
/- Witnesses and counterexamples.                                    -/
/- ----------------------------------------------------------------- -/

/-- C1 witness: the four decision rows and the batch count at a concrete
environment (empty base ROM, c.bps without metadata, a.bps matching,
b.bps mismatching). -/
theorem C1_witness :
    ((applyOne wEnv wOpts "base.rom" "c.bps").1
        = (applyTry wEnv wOpts.force_patch "base.rom" "c.bps"
            (outPath wOpts "base.rom" "c.bps") (pyHex010 (crcContent [])) none).1
      ∧ (applyOne wEnv wOpts "base.rom" "c.bps").2.1
          = [[wEnv.flips, "--apply", "c.bps", "base.rom", outPath wOpts "base.rom" "c.bps"]]
      ∧ (applyOne wEnv wOpts "base.rom" "c.bps").2.2 = false)
    ∧ ((applyOne wEnv wOpts "base.rom" "a.bps").1
        = ("CRC32 match for " ++ basename "a.bps" ++ ". Proceeding with patch.")
          :: (applyTry wEnv wOpts.force_patch "base.rom" "a.bps"
               (outPath wOpts "base.rom" "a.bps") (pyHex010 (crcContent []))
               (some "0x00000000")).1
      ∧ (applyOne wEnv wOpts "base.rom" "a.bps").2.1
          = [[wEnv.flips, "--apply", "a.bps", "base.rom", outPath wOpts "base.rom" "a.bps"]]
      ∧ (applyOne wEnv wOpts "base.rom" "a.bps").2.2 = false)
    ∧ (applyOne wEnv wOpts "base.rom" "b.bps"
        = (["Skipping patching for " ++ basename "b.bps" ++ " due to CRC32 mismatch."],
           [], false))
    ∧ ((applyOne wEnv wOptsF "base.rom" "b.bps").1
        = ("Force to Patch enabled. Applying patch for " ++ basename "b.bps"
            ++ " despite CRC32 mismatch.")
          :: (applyTry wEnv wOptsF.force_patch "base.rom" "b.bps"
               (outPath wOptsF "base.rom" "b.bps") (pyHex010 (crcContent []))
               (some "0x00000001")).1
      ∧ (applyOne wEnv wOptsF "base.rom" "b.bps").2.1
          = [[wEnv.flips, "--apply", "--ignore-checksum", "b.bps", "base.rom",
              outPath wOptsF "base.rom" "b.bps"]]
      ∧ (applyOne wEnv wOptsF "base.rom" "b.bps").2.2 = false)
    ∧ ((apply_patches wEnv wOpts (some "base.rom")
          (["a.bps"] ++ "b.bps" :: ["a.bps"])).2.1.length
          = ["a.bps"].length + ["a.bps"].length
      ∧ ("Skipping patching for " ++ basename "b.bps" ++ " due to CRC32 mismatch.")
          ∈ (apply_patches wEnv wOpts (some "base.rom")
              (["a.bps"] ++ "b.bps" :: ["a.bps"])).1) :=
  ⟨C1_apply_decision_and_batch.1 wEnv wOpts "base.rom" "c.bps" [] rfl (by decide),
   C1_apply_decision_and_batch.2.1 wEnv wOpts "base.rom" "a.bps" [] "0x00000000"
     rfl (by decide) (by decide),
   C1_apply_decision_and_batch.2.2.1 wEnv wOpts "base.rom" "b.bps" [] "0x00000001"
     rfl (by decide) (by decide) rfl,
   C1_apply_decision_and_batch.2.2.2.1 wEnv wOptsF "base.rom" "b.bps" [] "0x00000001"
     rfl (by decide) (by decide) rfl,
   C1_apply_decision_and_batch.2.2.2.2 wEnv wOpts "base.rom" [] ["a.bps"] ["a.bps"]
     "b.bps" "0x00000001" rfl rfl (by decide) (by decide) (by decide)⟩

/-- C2 witness: the DEADBEEF/12345678 trailer instance. -/
theorem C2_witness :
    metaLookup wEnv "t.bps" "Source CRC32" = some "0xdeadbeef"
    ∧ metaLookup wEnv "t.bps" "Target CRC32" = some "0x12345678" := by
  have h := C2_trailer_parse wEnv "t.bps" [] wTrailer (by decide) (by decide)
  exact ⟨h.1.trans (by decide), h.2.1.trans (by decide)⟩

/-- C3 witness: the three recovery cases at concrete files. -/
theorem C3_witness :
    (get_patch_metadata wEnv "missing.bps" = none
      ∧ get_patch_metadata_prints wEnv "missing.bps"
          = ["Error reading patch file " ++ "missing.bps" ++ ": " ++ PyErr.text .fileNotFound])
    ∧ (get_patch_metadata wEnv "c.bps" = none
      ∧ get_patch_metadata_prints wEnv "c.bps"
          = ["Error reading patch file " ++ "c.bps" ++ ": " ++ PyErr.text .osError])
    ∧ ((get_patch_metadata wEnv "t.bps").isSome = true
      ∧ get_patch_metadata_prints wEnv "t.bps" = []) :=
  ⟨C3_metadata_total_recovery.1 wEnv "missing.bps" (by decide),
   C3_metadata_total_recovery.2.1 wEnv "c.bps" [1, 2, 3] (by decide) (by decide),
   C3_metadata_total_recovery.2.2 wEnv "t.bps" wTrailer (by decide) (by decide)⟩

/-- C4 witness: the 20-byte header-slice file (slice AB CD 10 00, rendered
hex abcd1000, trimmed to abcd1). -/
theorem C4_witness :
    calculate_zle_hash wEnv.fs "z.rom"
      = .ok ⟨rstrip0 (hexBytes ((List.range 12).filterMap (fun i => wZle[16 + i]?)))⟩
    ∧ (hexBytes ((wZle.drop 16).take 12)).length ≤ 24
    ∧ (wZle.length ≤ 16 → calculate_zle_hash wEnv.fs "z.rom" = .ok "")
    ∧ hexBytes ((wZle.drop 16).take 12)
        = rstrip0 (hexBytes ((wZle.drop 16).take 12))
          ++ List.replicate ((hexBytes ((wZle.drop 16).take 12)).length
              - (rstrip0 (hexBytes ((wZle.drop 16).take 12))).length) '0'
    ∧ ((rstrip0 (hexBytes ((wZle.drop 16).take 12))).getLast? == some '0') = false :=
  C4_zle_header_slice wEnv.fs "z.rom" wZle (by decide)

/-- C8 witness: a missing file propagates out of each hash function,
aborts the apply loop, and is recovered by the metadata reader. -/
theorem C8_witness :
    calculate_crc32 wEnv.fs "missing.bps" = .error .fileNotFound
    ∧ calculate_md5 wEnv.md5hex wEnv.fs "missing.bps" = .error .fileNotFound
    ∧ calculate_sha1 wEnv.sha1hex wEnv.fs "missing.bps" = .error .fileNotFound
    ∧ calculate_zle_hash wEnv.fs "missing.bps" = .error .fileNotFound
    ∧ get_patch_metadata wEnv "missing.bps" = none
    ∧ get_patch_metadata_prints wEnv "missing.bps" ≠ []
    ∧ (applyOne wEnv wOpts "missing.bps" "a.bps").2.2 = true :=
  C8_hash_io_propagates wEnv wOpts "missing.bps" "a.bps" (by decide)

set_option maxRecDepth 4000 in
/-- C10 witness: the key list and value formats of a concrete metadata
result, and the none-correspondence at a present and an absent file. -/
theorem C10_witness :
    ((mdDict wEnv wTrailer).map Prod.fst
        = ["CRC32", "MD5", "SHA-1", "ZLE", "Source CRC32", "Target CRC32"]
      ∧ optHolds isCrcHex ((mdDict wEnv wTrailer).lookup "CRC32") = true
      ∧ optHolds isCrcHex ((mdDict wEnv wTrailer).lookup "Source CRC32") = true
      ∧ optHolds isCrcHex ((mdDict wEnv wTrailer).lookup "Target CRC32") = true
      ∧ ((mdDict wEnv wTrailer).lookup "Source CRC32").isSome = true)
    ∧ (applySource wEnv "t.bps").isNone = (get_patch_metadata wEnv "t.bps").isNone
    ∧ (applySource wEnv "missing.bps").isNone
        = (get_patch_metadata wEnv "missing.bps").isNone :=
  ⟨C10_metadata_invariant.1 wEnv "t.bps" (mdDict wEnv wTrailer) (by decide),
   C10_metadata_invariant.2 wEnv "t.bps",
   C10_metadata_invariant.2 wEnv "missing.bps"⟩

/-- C5 counterexample: a modified entry that is the base file itself has
equal CRC-32 with the base, yet create_patches reports the self-comparison
error for it, not the identical-skip outcome the claim requires for every
equal-CRC modified file. -/
theorem C5_counterexample :
    calculate_crc32 w5Env.fs "b.rom" = .ok (crcContent [1, 2])
    ∧ createOne w5Env wOpts "b.rom" "b.rom"
        = (["Error: Base ROM and Modified ROM must cannot be the same file. Ignoring this one."],
           [])
    ∧ (createOne w5Env wOpts "b.rom" "b.rom").1
        ≠ ["Skipping " ++ basename "b.rom"
            ++ ": Base and Modified are identical (no patch needed)."] := by
  refine ⟨rfl, by decide, by decide⟩

/-- C5 witness: the CRC fast path on a byte-identical distinct file, and
the tool's own identical-files failure reported as the same kind of
Skipping outcome. -/
theorem C5_witness :
    createOne w5Env wOpts "b.rom" "m1.rom"
      = (["Skipping " ++ basename "m1.rom"
           ++ ": Base and Modified are identical (no patch needed)."], [])
    ∧ createOne w5EnvIdent wOpts "b.rom" "m2.rom"
      = (["Skipping " ++ basename "m2.rom" ++ ": files are identical."],
         [[w5EnvIdent.flips, "--create", "b.rom", "m2.rom", createOutPath wOpts "m2.rom"]]) :=
  ⟨C5_identical_skip_amended.1 w5Env wOpts "b.rom" "m1.rom" [1, 2] [1, 2]
     (by decide) (by decide) (by decide) (by decide),
   C5_identical_skip_amended.2 w5EnvIdent wOpts "b.rom" "m2.rom" [1, 2] [3, 4, 5]
     (by decide) (by decide) (by decide) (by decide) (by decide) (by decide)⟩

/-- C6 witness: the base file in the middle of the modified list is
skipped with the self-comparison error while both neighbours are still
processed. -/
theorem C6_witness :
    create_patches w5Env wOpts (some "b.rom") (["m2.rom"] ++ "b.rom" :: ["m1.rom"])
      = ((createAll w5Env wOpts "b.rom" ["m2.rom"]).1
           ++ "Error: Base ROM and Modified ROM must cannot be the same file. Ignoring this one."
           :: ((createAll w5Env wOpts "b.rom" ["m1.rom"]).1
                ++ ["Patch creation process is complete."]),
         (createAll w5Env wOpts "b.rom" ["m2.rom"]).2
           ++ (createAll w5Env wOpts "b.rom" ["m1.rom"]).2) :=
  C6_create_self_comparison w5Env wOpts "b.rom" ["m2.rom"] ["m1.rom"] "b.rom" rfl

/-- C7 witness: a failing tool with an existing output file (soft
success), a failing tool without one (verbatim failure report), and the
loop continuing past a processed file. -/
theorem C7_witness :
    applyTry w7EnvA false "base.rom" "a.bps" "a.rom" "0x00000000" none
      = (["Successfully applied patch despite errors: [" ++ basename "a.rom" ++ "]",
          "Output file location: " ++ "a.rom"],
         [applyCmd w7EnvA false "0x00000000" none "a.bps" "base.rom" "a.rom"])
    ∧ applyTry w7EnvB false "base.rom" "a.bps" "a.rom" "0x00000000" none
      = (["Error applying patch [" ++ basename "a.bps" ++ "]:",
          "  Command: " ++ String.intercalate " "
             (applyCmd w7EnvB false "0x00000000" none "a.bps" "base.rom" "a.rom"),
          "  Stdout: "
            ++ (if (w7EnvB.tool (applyCmd w7EnvB false "0x00000000" none "a.bps" "base.rom" "a.rom")).stdout == ""
                then "No output"
                else pyStrip (w7EnvB.tool (applyCmd w7EnvB false "0x00000000" none "a.bps" "base.rom" "a.rom")).stdout),
          "  Stderr: "
            ++ (if (w7EnvB.tool (applyCmd w7EnvB false "0x00000000" none "a.bps" "base.rom" "a.rom")).stderr == ""
                then "Unknown error occurred."
                else pyStrip (w7EnvB.tool (applyCmd w7EnvB false "0x00000000" none "a.bps" "base.rom" "a.rom")).stderr)],
         [applyCmd w7EnvB false "0x00000000" none "a.bps" "base.rom" "a.rom"])
    ∧ applyAll w7EnvA wOpts "base.rom" ("c.bps" :: ["c.bps"])
      = ((applyOne w7EnvA wOpts "base.rom" "c.bps").1
           ++ (applyAll w7EnvA wOpts "base.rom" ["c.bps"]).1,
         (applyOne w7EnvA wOpts "base.rom" "c.bps").2.1
           ++ (applyAll w7EnvA wOpts "base.rom" ["c.bps"]).2.1,
         (applyAll w7EnvA wOpts "base.rom" ["c.bps"]).2.2) :=
  ⟨C7_apply_failure_handling.1 w7EnvA false "base.rom" "a.bps" "a.rom" "0x00000000" none
     (by decide) (by decide),
   C7_apply_failure_handling.2.1 w7EnvB false "base.rom" "a.bps" "a.rom" "0x00000000" none
     (by decide) (by decide),
   C7_apply_failure_handling.2.2 w7EnvA wOpts "base.rom" [] "c.bps" ["c.bps"] (by decide)⟩

/-- C9 counterexample: with the whole-directory scope, the apply-branch
expansion appends "./a/c.bps" even though its absolute path equals that of
the already selected entry "a/c.bps", so the result holds the same file
twice by absolute path. -/
theorem C9_counterexample :
    expandPatchFiles w9Env "directory" ".bps" ["./a/b.bps", "a/c.bps"]
      = ["./a/b.bps", "a/c.bps", "./a/c.bps"]
    ∧ w9Env.abspath "./a/c.bps" = w9Env.abspath "a/c.bps"
    ∧ "./a/c.bps" ∈ collectPatches w9Env "directory" (dirname "./a/b.bps") ".bps"
    ∧ ¬ ((expandPatchFiles w9Env "directory" ".bps" ["./a/b.bps", "a/c.bps"]).map
          w9Env.abspath).Nodup := by
  refine ⟨by decide, by decide, by decide, by decide⟩

/-- C9 witness: the amended expansion properties at the concrete
environment for both the apply branch and the create branch. -/
theorem C9_witness :
    ((expandPatchFiles w9Env "directory" ".bps" ["./a/b.bps", "a/c.bps"]).take
        ["./a/b.bps", "a/c.bps"].length = ["./a/b.bps", "a/c.bps"]
      ∧ ((expandPatchFiles w9Env "directory" ".bps" ["./a/b.bps", "a/c.bps"]).drop
          ["./a/b.bps", "a/c.bps"].length).all
          (fun f => (collectPatches w9Env "directory"
              (dirname (["./a/b.bps", "a/c.bps"].headD ""))
              (if (".bps" : String) == ".bps" then ".bps" else ".ips")).contains f
            && !(["./a/b.bps", "a/c.bps"].contains f)) = true
      ∧ (expandPatchFiles w9Env "directory" ".bps" ["./a/b.bps", "a/c.bps"]).Nodup)
    ∧ ((expandModified w9Env "directory" ["./a/b.bps"] none).take
        ["./a/b.bps"].length = ["./a/b.bps"]
      ∧ ((expandModified w9Env "directory" ["./a/b.bps"] none).drop
          ["./a/b.bps"].length).all
          (fun f => (collectRoms w9Env "directory"
              (dirname (["./a/b.bps"].headD "")) none).contains f
            && !((["./a/b.bps"].map w9Env.abspath).contains (w9Env.abspath f))) = true
      ∧ ((expandModified w9Env "directory" ["./a/b.bps"] none).map w9Env.abspath).Nodup) :=
  ⟨C9_expansion_amended.1 w9Env "directory" ".bps" ["./a/b.bps", "a/c.bps"] (by decide),
   C9_expansion_amended.2 w9Env "directory" ["./a/b.bps"] none (by decide)⟩
